import Mathlib

/-!
Verification of the TrackDrop curation core.

This file gives a shallow embedding of the parts of the TrackDrop
repository that the verified properties talk about:

* `src/apis/navidrome_api.py` — `_normalize_for_match`,
  `_search_song_in_navidrome`, `_check_song_protection`,
  `_should_delete_song`;
* `src/persistence/data_store.py` — the per-user JSON store
  (`_load_user_data`, `add_pending_cleanup`, `mark_playlist_synced`, …);
* `src/cleanup_manager.py` — `_load_db`;
* `src/playlist_monitor.py` — `_sync_playlist`.

Python strings are modelled as `String` / `List Char` (the inputs of
interest are ASCII, so `Char.toLower` models `str.lower`), Python floats
arising from halving integer ratings are modelled as `ℚ`, fallible
collaborator calls are modelled by `Option` arguments describing the
outcome of each call, and the on-disk JSON files are modelled as explicit
state values.  Log output (`print`) is ignored.
-/

namespace TrackDrop

/-! ## Text utilities (Python string/regex behaviour on ASCII data) -/

/-- Characters matched by Python `str.strip()` and the regex class `\s`. -/
def isPySpace (c : Char) : Bool :=
  c = ' ' || c = '\t' || c = '\n' || c = '\r' || c = Char.ofNat 11 || c = Char.ofNat 12

/-- Drop trailing characters satisfying `p` (Python `rstrip`). -/
def dropTrailing (p : Char → Bool) (cs : List Char) : List Char :=
  (cs.reverse.dropWhile p).reverse

/-- Python `str.strip()` on a character list. -/
def pyStrip (cs : List Char) : List Char :=
  dropTrailing isPySpace (cs.dropWhile isPySpace)

/-- The literal alternatives of the regex `(feat\.?|ft\.?|featuring|with)`. -/
def featKeywords : List (List Char) :=
  [String.data "feat.", String.data "feat", String.data "ft.",
   String.data "ft", String.data "featuring", String.data "with"]

/-- Does `l` start with keyword `k` followed by at least one whitespace
character?  This is keyword-then-`\s+` of the feat regex. -/
def startsWithKw (l k : List Char) : Bool :=
  k.isPrefixOf l &&
    (match l.drop k.length with
     | c :: _ => isPySpace c
     | [] => false)

/-- Does the regex `\s*(feat\.?|ft\.?|featuring|with)\s+.*` match starting
at the head of `l`? -/
def featHere (l : List Char) : Bool :=
  featKeywords.any (startsWithKw (l.dropWhile isPySpace))

/-- Model of `re.sub(r'\s*(feat\.?|ft\.?|featuring|with)\s+.*', '', t)`:
cut the string at the leftmost match (the match always extends to the end
of the string because of the trailing `.*`). -/
def featCut : List Char → List Char
  | [] => []
  | c :: cs => if featHere (c :: cs) then [] else c :: featCut cs

/-- Opening bracket of the regex class `[\(\[]`. -/
def isOpener (c : Char) : Bool := c = '(' || c = '['

/-- Closing bracket of the regex class `[\)\]]`. -/
def isCloser (c : Char) : Bool := c = ')' || c = ']'

/-- Remainder of the list after the first closing bracket, if any;
this is the non-greedy `.*?[\)\]]` part of the bracket regex. -/
def restAfterCloser : List Char → Option (List Char)
  | [] => none
  | c :: cs => if isCloser c then some cs else restAfterCloser cs

/-- Try to match `\s*[\(\[].*?[\)\]]` at the head of `l`; on success
return what follows the match. -/
def tryBracket (l : List Char) : Option (List Char) :=
  match l.dropWhile isPySpace with
  | [] => none
  | c :: cs => if isOpener c then restAfterCloser cs else none

/-- Worker for `bracketCut`; the fuel starts at the length of the list
and every step consumes at least one character, so it never runs out. -/
def bracketCutAux : Nat → List Char → List Char
  | 0, l => l
  | fuel + 1, l =>
    match tryBracket l with
    | some r => bracketCutAux fuel r
    | none =>
      match l with
      | [] => []
      | c :: cs => c :: bracketCutAux fuel cs

/-- Model of `re.sub(r'\s*[\(\[].*?[\)\]]', '', t)`: remove every
(non-overlapping, leftmost-first) bracketed segment. -/
def bracketCut (l : List Char) : List Char :=
  bracketCutAux l.length l

/-- Replace every maximal run of characters satisfying `p` by the single
character `sep` (models `re.sub(r'CLASS+', sep, t)`). -/
def collapseRuns (p : Char → Bool) (sep : Char) : List Char → List Char
  | [] => []
  | [c] => if p c then [sep] else [c]
  | c1 :: c2 :: cs =>
    if p c1 && p c2 then collapseRuns p sep (c2 :: cs)
    else (if p c1 then sep else c1) :: collapseRuns p sep (c2 :: cs)

/-- Embedding of `NavidromeAPI._normalize_for_match` (navidrome_api.py,
lines 325–332): lowercase, strip, strip trailing dots, cut a
"feat./ft./featuring/with …" suffix, drop bracketed segments, collapse
whitespace and strip again. -/
def normalizeForMatch (text : String) : String :=
  let t := text.data.map Char.toLower
  let t := dropTrailing (fun c => c = '.') (pyStrip t)
  let t := featCut t
  let t := bracketCut t
  let t := pyStrip (collapseRuns isPySpace ' ' t)
  String.mk t

/-- Is `needle` a contiguous substring of `hay`?  (Python `in` on lists of
characters; the empty needle is a substring of everything.) -/
def pyInfix (needle : List Char) : List Char → Bool
  | [] => needle.isEmpty
  | c :: cs => needle.isPrefixOf (c :: cs) || pyInfix needle cs

/-- Python `needle in hay` for strings. -/
def pyIn (needle hay : String) : Bool := pyInfix needle.data hay.data

/-- Characters of the regex class `[,&\s]` used to split artist names. -/
def isSepChar (c : Char) : Bool := c = ',' || c = '&' || isPySpace c

/-- Split a list at every `','` (fields between separators, with empty
fields kept — the behaviour of `re.split` once runs are collapsed). -/
def splitOnComma : List Char → List (List Char)
  | [] => [[]]
  | c :: cs =>
    if c = ',' then [] :: splitOnComma cs
    else
      match splitOnComma cs with
      | [] => [[c]]
      | f :: fs => (c :: f) :: fs

/-- Model of `set(re.split(r'[,&\s]+', s))`: the distinct fields obtained
by splitting `s` on runs of commas, ampersands and whitespace. -/
def pyWordSet (s : String) : List (List Char) :=
  (splitOnComma (collapseRuns isSepChar ',' s.data)).dedup

/-- Size of the intersection of the two word sets
(`len(artist_words & s_artist_words)`). -/
def overlapCount (a b : String) : Nat :=
  ((pyWordSet a).filter (fun w => decide (w ∈ pyWordSet b))).length

/-! ## Search and matching (`_search_song_in_navidrome`) -/

/-- A Navidrome search result, keeping the fields the matcher reads
(`s.get('id'/'artist'/'title'/'album', '')`, absent keys modelled as ""). -/
structure Song where
  id : String
  artist : String
  title : String
  album : String
deriving DecidableEq, Repr

/-- Embedding of the `_score` closure inside `_search_song_in_navidrome`
(navidrome_api.py, lines 367–397).  `normArtist`/`normTitle`/`normAlbum`
are the already-normalized query fields. -/
def scoreSong (normArtist normTitle : String) (normAlbum : Option String)
    (song : Song) : Int :=
  let sArtist := normalizeForMatch song.artist
  let sTitle := normalizeForMatch song.title
  let titlePart : Int :=
    if sTitle = normTitle then 100
    else if pyIn normTitle sTitle || pyIn sTitle normTitle then 60
    else 0
  let artistPart : Int :=
    if sArtist = normArtist then 100
    else if pyIn normArtist sArtist || pyIn sArtist normArtist then 60
    else
      let overlap := overlapCount normArtist sArtist
      if overlap ≠ 0 then 30 * (overlap : Int) else 0
  let albumPart : Int :=
    match normAlbum with
    | none => 0
    | some na =>
      let sAlbum := normalizeForMatch song.album
      if sAlbum = na then 50
      else if pyIn na sAlbum || pyIn sAlbum na then 25
      else -200
  titlePart + artistPart + albumPart

/-- One step of candidate collection: skip a song whose id was already
seen, otherwise record the id and append the song. -/
def gatherStep (st : List String × List Song) (s : Song) : List String × List Song :=
  if s.id ∈ st.1 then st else (st.1 ++ [s.id], st.2 ++ [s])

/-- Merging of one query's response into the collection state: a failed
query (`none`) contributes nothing, a successful one is folded song by
song. -/
def gatherFold (st : List String × List Song) (r : Option (List Song)) :
    List String × List Song :=
  match r with
  | none => st
  | some songs => songs.foldl gatherStep st

/-- Merge the per-query search responses (`none` = that query raised a
transport error and its results are omitted) into the deduplicated
candidate list, in first-appearance order. -/
def gatherCandidates (responses : List (Option (List Song))) : List Song :=
  (responses.foldl gatherFold ([], [])).2

/-- Embedding of `_search_song_in_navidrome` (navidrome_api.py, lines
334–407).  The function issues one query per element of `responses`
(the code issues three: raw title, normalized "artist title", raw
"artist title"); each response is `none` when that query failed.  The
surviving candidates are scored, sorted by score descending (stable, as
Python's `sort(reverse=True)`), and the top result is accepted only with
score ≥ 60. -/
def searchSongInNavidrome (artist title : String) (album : Option String)
    (responses : List (Option (List Song))) : Option Song :=
  let normArtist := normalizeForMatch artist
  let normTitle := normalizeForMatch title
  let normAlbum := album.map normalizeForMatch
  let allCandidates := gatherCandidates responses
  if allCandidates.isEmpty then
    none
  else
    let scored := allCandidates.map fun s => (s, scoreSong normArtist normTitle normAlbum s)
    let sorted := scored.mergeSort fun a b => decide (b.2 ≤ a.2)
    match sorted.head? with
    | none => none
    | some (bestSong, bestScore) => if bestScore ≥ 60 then some bestSong else none

/-! ## Protection evaluation (`_check_song_protection`) -/

/-- The dict returned by `_check_song_protection` (navidrome_api.py,
lines 100–108).  The Python key `protected` is a Lean keyword, so the
field is called `isProtected`.  Ratings are on the 0–5 scale and may be
half-integral (Navidrome stores 0–10 and the code halves), hence `ℚ`. -/
structure Protection where
  isProtected : Bool
  reasons : List String
  max_rating : ℚ
  has_one_star : Bool
  in_user_playlist : Bool
  has_interaction : Bool
  is_starred : Bool
deriving DecidableEq, Repr

/-- The initial `result` dict of `_check_song_protection`. -/
def initProtection : Protection :=
  { isProtected := false
    reasons := []
    max_rating := 0
    has_one_star := false
    in_user_playlist := false
    has_interaction := false
    is_starred := false }

/-- The lowered system playlist names excluded from playlist protection. -/
def recommendationPlaylistNames : List String :=
  ["listenbrainz weekly", "last.fm weekly", "llm weekly"]

/-- One row of `SELECT user_id, rating, starred, starred_at FROM
annotation …`.  `rating` is the stored 0–10 value (`none` = SQL NULL);
`starredAt` records whether the `starred_at` column is truthy. -/
structure AnnotationRow where
  user_id : String
  rating : Option Nat
  starred : Bool
  starredAt : Bool
deriving DecidableEq, Repr

/-- Python `user_id[:8]`. -/
def userIdPrefix (u : String) : String := String.mk (u.data.take 8)

/-- Processing of one annotation row in the SQLite branch of
`_check_song_protection` (navidrome_api.py, lines 125–147). -/
def applyAnnotationRow (res : Protection) (row : AnnotationRow) : Protection :=
  let dbRating := row.rating.getD 0
  let rating : ℚ := if dbRating > 0 then (dbRating : ℚ) / 2 else 0
  let res :=
    if rating > 0 ∨ row.starred ∨ row.starredAt then
      { res with has_interaction := true }
    else res
  let res :=
    if 0 < rating ∧ rating ≤ 1 then
      { res with has_one_star := true
                 reasons := res.reasons ++
                   ["rated " ++ toString rating ++ "/5 (low) by user " ++ userIdPrefix row.user_id ++ "..."] }
    else res
  let res :=
    if rating > 2 then
      { res with reasons := res.reasons ++
                   ["rated " ++ toString rating ++ "/5 by user " ++ userIdPrefix row.user_id ++ "..."] }
    else res
  let res := { res with max_rating := max res.max_rating rating }
  if row.starred ∨ row.starredAt then
    { res with is_starred := true
               reasons := res.reasons ++ ["starred by user " ++ userIdPrefix row.user_id ++ "..."]
               max_rating := max res.max_rating 5 }
  else res

/-- Processing of one `(playlist_name, owner_id)` row in the SQLite
branch (navidrome_api.py, lines 156–160). -/
def applyPlaylistRow (res : Protection) (row : String × String) : Protection :=
  if String.mk (row.1.data.map Char.toLower) ∉ recommendationPlaylistNames then
    { res with in_user_playlist := true
               reasons := res.reasons ++ ["in playlist '" ++ row.1 ++ "'"] }
  else res

/-- The SQLite (bulk database) branch of `_check_song_protection`
(navidrome_api.py, lines 114–166): fold the annotation rows, then the
playlist rows, then compute the legacy `protected` flag. -/
def checkSongProtectionBulk (rows : List AnnotationRow)
    (playlists : List (String × String)) : Protection :=
  let res := rows.foldl applyAnnotationRow initProtection
  let res := playlists.foldl applyPlaylistRow res
  { res with isProtected := decide (res.max_rating > 2) || res.is_starred || res.in_user_playlist }

/-- Modelled from the spec (§4.3), for comparison with the source-derived
`checkSongProtectionBulk`: the protection value one user contributes to
`max_rating` — the stored 0–10 rating halved, and 5 for a starred user. -/
def specPerUserRating (row : AnnotationRow) : ℚ :=
  max (if row.rating.getD 0 > 0 then ((row.rating.getD 0 : ℚ)) / 2 else 0)
      (if row.starred ∨ row.starredAt then 5 else 0)

/-- Modelled from the spec (§4.3): the verdict's `max_rating` as the
maximum of the per-user values, 0 when no annotation rows exist. -/
def specMaxRating (rows : List AnnotationRow) : ℚ :=
  (rows.map specPerUserRating).foldl max 0

/-- Per-user state returned by the per-user `getSong` API endpoint:
the truthiness of `details.get("starred")` and `details.get('userRating', 0)`. -/
structure ApiSongDetails where
  starred : Bool
  userRating : Nat
deriving DecidableEq, Repr

/-- Processing of one user's API details in the fallback branch of
`_check_song_protection` (navidrome_api.py, lines 173–192 for the
regular user and 198–217, identically, for the admin user). -/
def applyApiDetails (res : Protection) (userName : String)
    (details : ApiSongDetails) : Protection :=
  let res :=
    if details.userRating > 0 ∨ details.starred then
      { res with has_interaction := true }
    else res
  let res :=
    if 0 < details.userRating ∧ details.userRating ≤ 1 then
      { res with has_one_star := true
                 reasons := res.reasons ++
                   ["rated " ++ toString details.userRating ++ "/5 (low) by " ++ userName] }
    else res
  let res :=
    if details.starred then
      { res with is_starred := true
                 reasons := res.reasons ++ ["starred by " ++ userName]
                 max_rating := max res.max_rating 5 }
    else res
  let res :=
    if details.userRating > 2 then
      { res with reasons := res.reasons ++
                   ["rated " ++ toString details.userRating ++ "/5 by " ++ userName] }
    else res
  { res with max_rating := max res.max_rating (details.userRating : ℚ) }

/-- The per-user API fallback branch of `_check_song_protection`
(navidrome_api.py, lines 170–221), reached when the library database
path is unset, missing, or the bulk query raised.  `details` /
`adminDetails` are the `getSong` responses for the configured user and
the admin account (`none` when the call failed or returned nothing). -/
def checkSongProtectionFallback (userNd adminUser : String)
    (details adminDetails : Option ApiSongDetails) : Protection :=
  let res := initProtection
  let res :=
    match details with
    | some d => applyApiDetails res userNd d
    | none => res
  let res :=
    if adminUser ≠ "" ∧ adminUser ≠ userNd then
      match adminDetails with
      | some d => applyApiDetails res adminUser d
      | none => res
    else res
  { res with isProtected := decide (res.max_rating > 2) || res.is_starred || res.in_user_playlist }

/-! ## Curation policy (`_should_delete_song`) -/

/-- Embedding of `NavidromeAPI._should_delete_song` (navidrome_api.py,
lines 756–797).  Returns `(should_delete, reason)`; `reason` is `none`
exactly when the song is kept. -/
def shouldDeleteSong (protection : Protection) (is_discover_weekly : Bool) :
    Bool × Option String :=
  if is_discover_weekly then
    if !protection.has_interaction then
      (true, some "no user interaction")
    else if protection.max_rating ≤ 2 ∧ !protection.in_user_playlist then
      (true, some ("low rating (" ++ toString protection.max_rating ++ ") and not in any playlist"))
    else
      (false, none)
  else
    if !protection.has_one_star then
      (false, none)
    else if protection.is_starred || protection.in_user_playlist || decide (protection.max_rating > 2) then
      (false, none)
    else
      (true, some "1-star with no other user protection")

/-! ## Unified data store (`persistence/data_store.py`) -/

/-- An incoming `track_info` dict as passed to `add_pending_cleanup`.
The call sites always supply `artist`, `title` and `file_path`;
`added_at` is optional (`track_info.get('added_at', …)`). -/
structure TrackRec where
  artist : String
  title : String
  file_path : Option String
  added_at : Option String
deriving DecidableEq, Repr

/-- A record stored in a `pending_cleanup` source list (after an add has
stamped `added_at`). -/
structure StoredRec where
  artist : String
  title : String
  file_path : Option String
  added_at : String
deriving DecidableEq, Repr

/-- Python `s.lower()` (ASCII data). -/
def pyLower (s : String) : String := String.mk (s.data.map Char.toLower)

/-- The case-insensitive identity of a stored record. -/
def recKey (r : StoredRec) : String × String := (pyLower r.artist, pyLower r.title)

/-- The case-insensitive identity of an incoming `track_info`. -/
def infoKey (i : TrackRec) : String × String := (pyLower i.artist, pyLower i.title)

/-- Effect of `existing.update(track_info)` followed by
`existing['added_at'] = track_info.get('added_at', now)` on a matched
record (data_store.py, lines 412–419). -/
def applyUpdate (i : TrackRec) (now : String) : StoredRec :=
  { artist := i.artist
    title := i.title
    file_path := i.file_path
    added_at := i.added_at.getD now }

/-- A freshly appended record: `track_info['added_at'] = now` overwrites
any provided timestamp (data_store.py, line 421). -/
def newRec (i : TrackRec) (now : String) : StoredRec :=
  { artist := i.artist
    title := i.title
    file_path := i.file_path
    added_at := now }

/-- The upsert loop of `add_pending_cleanup` on one source's track list:
update the first record with the same lowercased (artist, title) and stop,
otherwise append a new record at the end. -/
def addToTracks (i : TrackRec) (now : String) : List StoredRec → List StoredRec
  | [] => [newRec i now]
  | r :: rs =>
    if recKey r = infoKey i then applyUpdate i now :: rs
    else r :: addToTracks i now rs

/-- Lookup in an association list modelling a JSON object / Python dict. -/
def assocGet {α : Type} (l : List (String × α)) (k : String) : Option α :=
  (l.find? fun p => p.1 = k).map fun p => p.2

/-- Update (or insert) a key in an association list, keeping first-lookup
semantics: every binding of `k` is overwritten, a missing key is appended. -/
def assocSet {α : Type} (l : List (String × α)) (k : String) (v : α) :
    List (String × α) :=
  if l.any (fun p => p.1 = k) then
    l.map fun p => if p.1 = k then (k, v) else p
  else
    l ++ [(k, v)]

/-- A monitored playlist entry (data_store.py, lines 573–584, plus the
`navidrome_playlist_id` and `auto_cleanup` keys playlist_monitor.py
reads with `.get`). -/
structure PlaylistEntry where
  id : String
  url : String
  name : String
  platform : String
  username : String
  poll_interval_hours : Nat
  enabled : Bool
  added_at : String
  last_synced : Option String
  last_track_count : Nat
  navidrome_playlist_id : Option String
  auto_cleanup : Bool
deriving DecidableEq, Repr

/-- The per-user data file contents.  Only the parts the verified claims
touch are modelled (`settings`, `download_history` and the bookkeeping
timestamps are omitted). -/
structure UserData where
  pending_cleanup : List (String × List StoredRec)
  monitored_playlists : List PlaylistEntry
deriving DecidableEq, Repr

/-- The default structure created by `_create_default_user_data`
(data_store.py, lines 105–114), restricted to the modelled fields. -/
def createDefaultUserData : UserData :=
  { pending_cleanup := []
    monitored_playlists := [] }

/-- The states of one user's data file on which `_load_user_data`
returns an object: `unreadable` covers exactly the cases its
`except (json.JSONDecodeError, IOError)` clause catches and recovers —
a file whose open/read raises `IOError`, or text that fails JSON
parsing — and a missing entry means the file does not exist (recovered
before the `open`).  Files on which the loader or its callers raise —
bytes that make `json.load` raise `UnicodeDecodeError`, or JSON that
parses to a non-object — are the extra states of `RawUserFile` below;
`DataStore` is the sub-state-space on which every operation returns
normally, and the simulation lemmas `loadUserRaw_toRaw` etc. tie the
two layers together. -/
inductive UserFile
  | unreadable
  | valid (d : UserData)
deriving DecidableEq

/-- The data directory: one file per sanitized username. -/
structure DataStore where
  files : List (String × UserFile)
deriving DecidableEq

/-- Python `username.replace('/', '_').replace('\\', '_')` used to build
the per-user file name (data_store.py, line 84). -/
def sanitizeUser (u : String) : String :=
  String.mk (u.data.map fun c => if c = '/' ∨ c = '\\' then '_' else c)

/-- Embedding of `_load_user_data` (data_store.py, lines 87–96) on the
states where it returns an object: a missing file and a file whose read
raises `IOError` or whose text fails JSON parsing both yield the default
structure.  The crashing states live in `loadUserRaw` below. -/
def loadUser (st : DataStore) (u : String) : UserData :=
  match assocGet st.files (sanitizeUser u) with
  | none => createDefaultUserData
  | some .unreadable => createDefaultUserData
  | some (.valid d) => d

/-- Embedding of `_save_user_data`: write the (valid) data back to the
user's file (the `_last_modified` stamp is not modelled). -/
def saveUser (st : DataStore) (u : String) (d : UserData) : DataStore :=
  { files := assocSet st.files (sanitizeUser u) (.valid d) }

/-- Embedding of `DataStore.add_pending_cleanup` (data_store.py, lines
398–425): load the user's data, upsert the track into the source's list
keyed by lowercased (artist, title), save.  `now` stands for
`datetime.now().isoformat()`. -/
def addPendingCleanup (st : DataStore) (username source : String)
    (info : TrackRec) (now : String) : DataStore :=
  let data := loadUser st username
  let tracks := (assocGet data.pending_cleanup source).getD []
  let pending := assocSet data.pending_cleanup source (addToTracks info now tracks)
  saveUser st username { data with pending_cleanup := pending }

/-- Embedding of `get_pending_cleanup` with `source=None`. -/
def getPendingCleanup (st : DataStore) (username : String) :
    List (String × List StoredRec) :=
  (loadUser st username).pending_cleanup

/-- Embedding of `get_pending_count` (data_store.py, lines 492–498). -/
def getPendingCount (st : DataStore) (username : String) : Nat :=
  ((loadUser st username).pending_cleanup.map fun p => p.2.length).sum

/-- Embedding of `is_pending_cleanup` (data_store.py, lines 476–490). -/
def isPendingCleanup (st : DataStore) (username artist title : String) : Bool :=
  (loadUser st username).pending_cleanup.any fun p =>
    p.2.any fun t =>
      pyLower t.artist = pyLower artist && pyLower t.title = pyLower title

/-- Embedding of `get_monitored_playlists` for a given username. -/
def getMonitoredPlaylists (st : DataStore) (username : String) :
    List PlaylistEntry :=
  (loadUser st username).monitored_playlists

/-- The pending list of one (user, source) pair. -/
def pendingTracks (st : DataStore) (username source : String) : List StoredRec :=
  (assocGet (loadUser st username).pending_cleanup source).getD []

/-- A store with no data files. -/
def emptyStore : DataStore := { files := [] }

/-- One `add_pending_cleanup` call with all of its arguments. -/
structure AddOp where
  username : String
  source : String
  info : TrackRec
  now : String
deriving DecidableEq

/-- Run one recorded add against a store. -/
def applyAdd (st : DataStore) (op : AddOp) : DataStore :=
  addPendingCleanup st op.username op.source op.info op.now

/-- No two records of one source list share a lowercased (artist, title)
key — the at-most-one-record-per-key store invariant. -/
def NoDupKey (l : List StoredRec) : Prop :=
  l.Pairwise fun a b => recKey a ≠ recKey b

/-- The store invariant, for every owner user and source. -/
def StoreInv (st : DataStore) : Prop :=
  ∀ u s, NoDupKey (pendingTracks st u s)

/-! ## Full file-state space with crash behaviour

`_load_user_data` only catches `json.JSONDecodeError` and `IOError`.
Two further kinds of bad file are reachable and are NOT recovered:

* bytes that are not decodable text make `json.load` raise
  `UnicodeDecodeError` (a `ValueError` that is neither a
  `JSONDecodeError` nor an `IOError`), which propagates out of
  `_load_user_data`;
* text that parses as JSON but not as an object is returned as-is, and
  every store operation then raises `AttributeError` at its
  `data.get(...)` call.

The raw layer below models these crash paths explicitly; operations
return `Except PyError`. -/

/-- The Python exceptions that escape the store operations. -/
inductive PyError
  | unicodeDecodeError
  | attributeError
  | typeError
deriving DecidableEq, Repr

/-- What `json.load` hands back to `_load_user_data` when it does not
raise: a JSON object (read as the modelled fields) or any other JSON
value. -/
inductive PyJson
  | obj (d : UserData)
  | nonObject
deriving DecidableEq

/-- The full state space of one user's data file: the recoverable and
valid states of `UserFile`, plus the two crashing states. -/
inductive RawUserFile
  | unreadable
  | undecodable
  | parsedNonObject
  | valid (d : UserData)
deriving DecidableEq

/-- The data directory over the full file-state space. -/
structure RawDataStore where
  files : List (String × RawUserFile)
deriving DecidableEq

/-- Embedding of `_load_user_data` (data_store.py, lines 87–96) over the
full state space: a missing file and an `IOError`/`JSONDecodeError` file
yield the default structure, undecodable bytes raise
`UnicodeDecodeError`, and non-object JSON is returned unrecovered. -/
def loadUserRaw (st : RawDataStore) (u : String) : Except PyError PyJson :=
  match assocGet st.files (sanitizeUser u) with
  | none => .ok (.obj createDefaultUserData)
  | some .unreadable => .ok (.obj createDefaultUserData)
  | some .undecodable => .error .unicodeDecodeError
  | some .parsedNonObject => .ok .nonObject
  | some (.valid d) => .ok (.obj d)

/-- Embedding of `_save_user_data` over the full state space. -/
def saveUserRaw (st : RawDataStore) (u : String) (d : UserData) : RawDataStore :=
  { files := assocSet st.files (sanitizeUser u) (.valid d) }

/-- Embedding of `get_pending_cleanup` (`source=None`) with its crash
behaviour: `data.get('pending_cleanup', {})` raises `AttributeError`
when the loaded value is not an object. -/
def getPendingCleanupRaw (st : RawDataStore) (username : String) :
    Except PyError (List (String × List StoredRec)) :=
  match loadUserRaw st username with
  | .error e => .error e
  | .ok .nonObject => .error .attributeError
  | .ok (.obj d) => .ok d.pending_cleanup

/-- Embedding of `get_pending_count` with its crash behaviour. -/
def getPendingCountRaw (st : RawDataStore) (username : String) :
    Except PyError Nat :=
  match loadUserRaw st username with
  | .error e => .error e
  | .ok .nonObject => .error .attributeError
  | .ok (.obj d) => .ok ((d.pending_cleanup.map fun p => p.2.length).sum)

/-- Embedding of `is_pending_cleanup` with its crash behaviour. -/
def isPendingCleanupRaw (st : RawDataStore) (username artist title : String) :
    Except PyError Bool :=
  match loadUserRaw st username with
  | .error e => .error e
  | .ok .nonObject => .error .attributeError
  | .ok (.obj d) =>
    .ok (d.pending_cleanup.any fun p =>
      p.2.any fun t =>
        pyLower t.artist = pyLower artist && pyLower t.title = pyLower title)

/-- Embedding of `get_monitored_playlists` with its crash behaviour. -/
def getMonitoredPlaylistsRaw (st : RawDataStore) (username : String) :
    Except PyError (List PlaylistEntry) :=
  match loadUserRaw st username with
  | .error e => .error e
  | .ok .nonObject => .error .attributeError
  | .ok (.obj d) => .ok d.monitored_playlists

/-- Embedding of `add_pending_cleanup` with its crash behaviour: the
load may raise, the `data.get` on a non-object raises, and a raising
call writes nothing. -/
def addPendingCleanupRaw (st : RawDataStore) (username source : String)
    (info : TrackRec) (now : String) : Except PyError RawDataStore :=
  match loadUserRaw st username with
  | .error e => .error e
  | .ok .nonObject => .error .attributeError
  | .ok (.obj data) =>
    let tracks := (assocGet data.pending_cleanup source).getD []
    let pending := assocSet data.pending_cleanup source (addToTracks info now tracks)
    .ok (saveUserRaw st username { data with pending_cleanup := pending })

/-- A non-crashing file state, viewed inside the full state space. -/
def UserFile.toRaw : UserFile → RawUserFile
  | .unreadable => .unreadable
  | .valid d => .valid d

/-- A non-crashing store, viewed inside the full state space. -/
def DataStore.toRaw (st : DataStore) : RawDataStore :=
  { files := st.files.map fun p => (p.1, p.2.toRaw) }

/-! ## Cleanup manager store (`cleanup_manager.py`) -/

/-- The pending-cleanup database of `CleanupManager` (v2 format). -/
structure CleanupDb where
  pending : List (String × List StoredRec)
  version : Nat
deriving DecidableEq, Repr

/-- The on-disk state `CleanupManager._load_db` reads: a missing file
(`open` raises `FileNotFoundError`, an `IOError`, caught), an
`IOError`/`JSONDecodeError` file (caught), undecodable bytes
(`UnicodeDecodeError`, uncaught), a parsed v2 object with a `pending`
key, a parsed legacy object without one (wrapped; the write-back of the
wrapped value is not modelled), or JSON parsing to a value that does not
support `in` — `None`, a number or a boolean — on which
`'pending' not in data` raises `TypeError` (uncaught).  JSON strings and
arrays, which do support `in`, are wrapped like the legacy format and
are outside the modelled states. -/
inductive DbFile
  | missing
  | unreadable
  | undecodable
  | parsed (d : CleanupDb)
  | legacyParsed (m : List (String × List StoredRec))
  | parsedNonIterable
deriving DecidableEq

/-- Embedding of `CleanupManager._load_db` (cleanup_manager.py, lines
42–55) with its crash behaviour: caught read/JSON errors yield the empty
v2 structure, a legacy object is wrapped as `{pending: data, version: 2}`,
undecodable bytes and membership-test failures propagate. -/
def loadDb : DbFile → Except PyError CleanupDb
  | .missing => .ok { pending := [], version := 2 }
  | .unreadable => .ok { pending := [], version := 2 }
  | .undecodable => .error .unicodeDecodeError
  | .parsed d => .ok d
  | .legacyParsed m => .ok { pending := m, version := 2 }
  | .parsedNonIterable => .error .typeError

/-! ## Playlist monitor (`playlist_monitor.py`) -/

/-- A track extracted from the playlist source (artist/title projection
built in `_sync_playlist`, line 121). -/
structure Track where
  artist : String
  title : String
deriving DecidableEq, Repr

/-- Outcome of the `download_playlist` phase of a sync run: either the
call raised (the exception is caught and logged), or it completed and
the Navidrome playlist lookup produced the given id and name. -/
inductive DownloadOutcome
  | raised
  | completed (navidromePlaylistId : Option String) (navidromeName : Option String)
deriving DecidableEq

/-- The external outcomes of one sync run of `_sync_playlist`:
`extracted` is `none` when `extract_playlist_tracks` raised,
`cleanupRaised` records whether `cleanup_source` raised (caught), and
`download` the download phase outcome. -/
structure SyncOutcome where
  extracted : Option (List Track)
  cleanupRaised : Bool
  download : DownloadOutcome
deriving DecidableEq

/-- The `track_count` variable of `_sync_playlist` (lines 113–121): it
stays `None` when extraction raised or returned a falsy (empty) list. -/
def trackCountOf : Option (List Track) → Option Nat
  | none => none
  | some ts => if ts.isEmpty then none else some ts.length

/-- Effect of `mark_playlist_synced` (data_store.py, lines 622–637) on
the matched entry: `last_synced` is always set; `last_track_count` only
when a count was passed. -/
def markPlaylistSyncedEntry (p : PlaylistEntry) (now : String)
    (tc : Option Nat) : PlaylistEntry :=
  { p with
    last_synced := some now
    last_track_count :=
      match tc with
      | some n => n
      | none => p.last_track_count }

/-- Effect of the post-download `updates` of `_sync_playlist` (lines
162–188) on the entry: `update_monitored_playlist` only copies the
`poll_interval_hours` / `enabled` / `name` keys, and the sync only ever
puts `name` (and the ignored `navidrome_playlist_id`) into `updates`,
so at most the display name changes. -/
def applyDownloadUpdates (p : PlaylistEntry) (d : DownloadOutcome) : PlaylistEntry :=
  match d with
  | .raised => p
  | .completed _ ndName =>
    match ndName with
    | some n => if n ≠ p.name then { p with name := n } else p
    | none => p

/-- Net effect of one `_sync_playlist` run (playlist_monitor.py, lines
98–193) on the monitored entry: every phase failure is caught inside
the run, and `mark_synced` runs unconditionally at the end with the
`track_count` captured during extraction. -/
def syncPlaylist (p : PlaylistEntry) (out : SyncOutcome) (now : String) :
    PlaylistEntry :=
  let tc := trackCountOf out.extracted
  let p1 := applyDownloadUpdates p out.download
  markPlaylistSyncedEntry p1 now tc

/-! ## Claims about the curation policy -/

/-- Claim C1, counterexample: with `has_any_interaction = false` the
DiscoverWeekly rule set does delete, but the reason string produced by
`_should_delete_song` is "no user interaction", not the claimed
"no interaction". -/
theorem claim1_counterexample :
    shouldDeleteSong
      { isProtected := false, reasons := [], max_rating := 5, has_one_star := true,
        in_user_playlist := true, has_interaction := false, is_starred := true }
      true
    ≠ (true, some "no interaction") := by
  decide

/-- Claim C1 (amended): for every protection verdict with
`has_any_interaction = false`, deciding under the DiscoverWeekly rule set
yields Delete with reason "no user interaction", independent of
`max_rating`, `has_one_star`, `is_starred` and `in_user_playlist`. -/
theorem discoverWeekly_no_interaction_deletes (p : Protection)
    (h : p.has_interaction = false) :
    shouldDeleteSong p true = (true, some "no user interaction") := by
  simp [shouldDeleteSong, h]

/-- Claim C1 witness: the amended theorem applied to a concrete verdict
whose every other field is set. -/
theorem discoverWeekly_no_interaction_deletes_witness :
    shouldDeleteSong
      { isProtected := false, reasons := [], max_rating := 5, has_one_star := true,
        in_user_playlist := true, has_interaction := false, is_starred := true }
      true
    = (true, some "no user interaction") :=
  discoverWeekly_no_interaction_deletes _ rfl

/-- Claim C2, counterexample: at a verdict satisfying the claimed delete
condition the Standard rule set does delete, but the reason string is
"1-star with no other user protection", not the claimed
"1-star with no other protection". -/
theorem claim2_counterexample :
    shouldDeleteSong
      { isProtected := false, reasons := [], max_rating := 0, has_one_star := true,
        in_user_playlist := false, has_interaction := true, is_starred := false }
      false
    = (true, some "1-star with no other user protection") ∧
    shouldDeleteSong
      { isProtected := false, reasons := [], max_rating := 0, has_one_star := true,
        in_user_playlist := false, has_interaction := true, is_starred := false }
      false
    ≠ (true, some "1-star with no other protection") := by
  constructor
  · decide
  · decide

/-- Claim C2 (amended): the Standard rule set deletes, with reason
"1-star with no other user protection", exactly when `has_one_star`
holds and none of `is_starred`, `in_user_playlist`, `max_rating > 2`
hold; in every other case it keeps. -/
theorem standard_policy_characterization (p : Protection) :
    shouldDeleteSong p false =
      if p.has_one_star ∧ ¬(p.is_starred ∨ p.in_user_playlist ∨ p.max_rating > 2) then
        (true, some "1-star with no other user protection")
      else
        (false, none) := by
  obtain ⟨pr, rs, mr, hos, hup, hhi, hst⟩ := p
  by_cases hmr : mr > 2 <;> cases hos <;> cases hst <;> cases hup <;>
    simp [shouldDeleteSong, hmr]

/-! ## Claims about the sync scheduler bookkeeping -/

/-- Claim C9, counterexample: two sync runs that differ only in the
entry's prior `last_track_count`, both with failed track extraction,
end with different `last_track_count` values — so the field is retained,
not updated unconditionally as claimed. -/
theorem claim9_counterexample :
    (syncPlaylist
      { id := "t1", url := "https://x/p", name := "P", platform := "spotify",
        username := "alice", poll_interval_hours := 24, enabled := true,
        added_at := "2026-01-01T00:00:00", last_synced := some "2026-01-01T00:00:00",
        last_track_count := 5, navidrome_playlist_id := none, auto_cleanup := true }
      { extracted := none, cleanupRaised := true, download := .raised }
      "2026-01-02T03:04:05").last_track_count
    ≠
    (syncPlaylist
      { id := "t1", url := "https://x/p", name := "P", platform := "spotify",
        username := "alice", poll_interval_hours := 24, enabled := true,
        added_at := "2026-01-01T00:00:00", last_synced := some "2026-01-01T00:00:00",
        last_track_count := 0, navidrome_playlist_id := none, auto_cleanup := true }
      { extracted := none, cleanupRaised := true, download := .raised }
      "2026-01-02T03:04:05").last_track_count := by
  decide

/-- Claim C9 (amended): every sync run — also when extraction, cleanup or
download fails — sets `last_synced` to the current time at the end of the
run (so a persistently-failing target waits a full poll interval), while
`last_track_count` is overwritten only when track extraction succeeded
with a nonempty list and is retained otherwise. -/
theorem sync_marks_synced_unconditionally (p : PlaylistEntry)
    (out : SyncOutcome) (now : String) :
    (syncPlaylist p out now).last_synced = some now ∧
    (syncPlaylist p out now).last_track_count =
      (match trackCountOf out.extracted with
       | some n => n
       | none => p.last_track_count) := by
  obtain ⟨ex, cl, dl⟩ := out
  have h3 : (applyDownloadUpdates p dl).last_track_count = p.last_track_count := by
    cases dl with
    | raised => rfl
    | completed i n =>
      cases n with
      | none => rfl
      | some nm =>
        by_cases hnm : nm ≠ p.name <;> simp [applyDownloadUpdates, hnm]
  refine ⟨rfl, ?_⟩
  show (markPlaylistSyncedEntry (applyDownloadUpdates p dl) now (trackCountOf ex)).last_track_count = _
  cases htc : trackCountOf ex <;> simp [markPlaylistSyncedEntry, htc, h3]

/-! ## Claim about the fallback protection path -/

/-- Processing one user's API details never touches the playlist flag. -/
theorem applyApiDetails_in_user_playlist (res : Protection) (u : String)
    (det : ApiSongDetails) :
    (applyApiDetails res u det).in_user_playlist = res.in_user_playlist := by
  simp only [applyApiDetails]
  split_ifs <;> rfl

/-- Claim C10: in the per-user API fallback path of the protection
evaluation, the verdict's `in_user_playlist` field is always false,
whatever the entry's actual playlist membership — playlist protection is
entirely invisible in fallback mode. -/
theorem fallback_playlist_invisible (userNd adminUser : String)
    (details adminDetails : Option ApiSongDetails) :
    (checkSongProtectionFallback userNd adminUser details adminDetails).in_user_playlist = false := by
  simp only [checkSongProtectionFallback]
  cases details with
  | none =>
    cases adminDetails with
    | none => split_ifs <;> rfl
    | some d2 =>
      split_ifs <;> simp [applyApiDetails_in_user_playlist, initProtection]
  | some d1 =>
    cases adminDetails with
    | none =>
      split_ifs <;> simp [applyApiDetails_in_user_playlist, initProtection]
    | some d2 =>
      split_ifs <;> simp [applyApiDetails_in_user_playlist, initProtection]

/-! ## Claim about search error handling -/

/-- Folding only failed responses leaves the collection state unchanged. -/
theorem foldl_gatherFold_all_none (rs : List (Option (List Song)))
    (h : ∀ r ∈ rs, r = none) (st : List String × List Song) :
    rs.foldl gatherFold st = st := by
  induction rs generalizing st with
  | nil => rfl
  | cons r tl ih =>
    have hr : r = none := h r (List.mem_cons_self _ _)
    have htl : ∀ x ∈ tl, x = none := fun x hx => h x (List.mem_cons_of_mem _ hx)
    rw [List.foldl_cons, hr]
    exact ih htl st

/-- Replacing every failed query by a successful empty response does not
change the collected candidates. -/
theorem gatherCandidates_mask (rs : List (Option (List Song))) :
    gatherCandidates (rs.map fun r => some (r.getD [])) = gatherCandidates rs := by
  unfold gatherCandidates
  have : ∀ st, (rs.map fun r => some (r.getD [])).foldl gatherFold st = rs.foldl gatherFold st := by
    induction rs with
    | nil => intro st; rfl
    | cons r tl ih =>
      intro st
      cases r with
      | none => simpa using ih (gatherFold st none)
      | some songs => simpa using ih (gatherFold st (some songs))
  rw [this]

/-- Claim C6: when every issued search query fails with a transport
error, resolution returns NoMatch (`none`) rather than an error; and in
general a failed query behaves exactly as a query that returned no
results, so resolution proceeds over the successful queries only. -/
theorem search_failures_are_nomatch (artist title : String) (album : Option String)
    (rs rs2 : List (Option (List Song))) (h : ∀ r ∈ rs, r = none) :
    searchSongInNavidrome artist title album rs = none ∧
    searchSongInNavidrome artist title album rs2 =
      searchSongInNavidrome artist title album (rs2.map fun r => some (r.getD [])) := by
  constructor
  · have hg : gatherCandidates rs = [] := by
      unfold gatherCandidates
      rw [foldl_gatherFold_all_none rs h]
    simp [searchSongInNavidrome, hg]
  · simp only [searchSongInNavidrome, gatherCandidates_mask]

/-- Claim C6 witness: all three queries of a search fail — NoMatch; and a
mixed failure/success response list equals its masked version. -/
theorem search_failures_are_nomatch_witness :
    searchSongInNavidrome "The Weeknd" "Blinding Lights" none [none, none, none] = none ∧
    searchSongInNavidrome "The Weeknd" "Blinding Lights" none
        [none, some [{ id := "7", artist := "The Weeknd", title := "Blinding Lights", album := "After Hours" }], none] =
      searchSongInNavidrome "The Weeknd" "Blinding Lights" none
        ([none, some [{ id := "7", artist := "The Weeknd", title := "Blinding Lights", album := "After Hours" }], none].map
          fun r => some (r.getD [])) :=
  search_failures_are_nomatch "The Weeknd" "Blinding Lights" none [none, none, none]
    [none, some [{ id := "7", artist := "The Weeknd", title := "Blinding Lights", album := "After Hours" }], none]
    (by decide)

/-! ## Claim about the bulk protection evaluation -/

/-- A fold of `max` never goes below its initial value. -/
theorem le_foldl_max_init {α : Type} [LinearOrder α] (l : List α) (a : α) :
    a ≤ l.foldl max a := by
  induction l generalizing a with
  | nil => exact le_refl a
  | cons x xs ih => exact le_trans (le_max_left a x) (ih (max a x))

/-- A fold of `max` dominates every list element. -/
theorem le_foldl_max_mem {α : Type} [LinearOrder α] {l : List α} {x : α}
    (hx : x ∈ l) (a : α) : x ≤ l.foldl max a := by
  induction l generalizing a with
  | nil => cases hx
  | cons y ys ih =>
    rw [List.foldl_cons]
    rcases List.mem_cons.mp hx with h | h
    · subst h
      exact le_trans (le_max_right a x) (le_foldl_max_init ys (max a x))
    · exact ih h (max a y)

/-- Processing one annotation row raises `max_rating` exactly by the
per-user value described by the spec. -/
theorem applyAnnotationRow_max_rating (res : Protection) (row : AnnotationRow) :
    (applyAnnotationRow res row).max_rating =
      max res.max_rating (specPerUserRating row) := by
  rcases row with ⟨u, rat, st, sa⟩
  have hr : (0:ℚ) ≤ (if rat.getD 0 > 0 then ((rat.getD 0 : ℚ)) / 2 else 0) := by
    split_ifs with h
    · positivity
    · exact le_refl 0
  simp only [applyAnnotationRow, specPerUserRating]
  split_ifs at hr ⊢ <;>
    simp_all [max_assoc, max_eq_left]

/-- The annotation fold computes `max_rating` as the running maximum of
the per-user values. -/
theorem foldl_annotation_max_rating (rows : List AnnotationRow) (res : Protection) :
    (rows.foldl applyAnnotationRow res).max_rating =
      rows.foldl (fun m row => max m (specPerUserRating row)) res.max_rating := by
  induction rows generalizing res with
  | nil => rfl
  | cons r tl ih =>
    rw [List.foldl_cons, List.foldl_cons, ih, applyAnnotationRow_max_rating]

/-- The playlist rows never change `max_rating`. -/
theorem applyPlaylistRow_max_rating (res : Protection) (row : String × String) :
    (applyPlaylistRow res row).max_rating = res.max_rating := by
  simp only [applyPlaylistRow]
  split_ifs <;> rfl

/-- The playlist fold never changes `max_rating`. -/
theorem foldl_playlist_max_rating (pls : List (String × String)) (res : Protection) :
    (pls.foldl applyPlaylistRow res).max_rating = res.max_rating := by
  induction pls generalizing res with
  | nil => rfl
  | cons r tl ih => rw [List.foldl_cons, ih, applyPlaylistRow_max_rating]

/-- Claim C7: in the bulk database path, the verdict's `max_rating` is
the maximum over all annotation rows of the per-user values — the stored
0–10 rating halved, with any starred user forcing the user's value to 5 —
and 0 when no rows exist; in particular any starred row pushes
`max_rating` to at least 5. -/
theorem bulk_max_rating_formula (rows : List AnnotationRow)
    (playlists : List (String × String)) :
    (checkSongProtectionBulk rows playlists).max_rating = specMaxRating rows ∧
    ∀ row ∈ rows, (row.starred ∨ row.starredAt) →
      (5:ℚ) ≤ (checkSongProtectionBulk rows playlists).max_rating := by
  have h1 : (checkSongProtectionBulk rows playlists).max_rating = specMaxRating rows := by
    have hproj : (checkSongProtectionBulk rows playlists).max_rating
        = (playlists.foldl applyPlaylistRow (rows.foldl applyAnnotationRow initProtection)).max_rating := rfl
    rw [hproj, foldl_playlist_max_rating, foldl_annotation_max_rating,
      specMaxRating, List.foldl_map]
    rfl
  refine ⟨h1, ?_⟩
  intro row hmem hst
  rw [h1]
  have h5 : (5:ℚ) ≤ specPerUserRating row := by
    have : (if row.starred ∨ row.starredAt then (5:ℚ) else 0) = 5 := if_pos hst
    calc (5:ℚ) = (if row.starred ∨ row.starredAt then (5:ℚ) else 0) := this.symm
    _ ≤ specPerUserRating row := le_max_right _ _
  exact le_trans h5
    (le_foldl_max_mem (List.mem_map_of_mem specPerUserRating hmem) 0)

/-- Claim C7 witness: the formula applied to a concrete pair of rows —
one user rating 7/10, one starred user — with the starred bound
instantiated on the starred row. -/
theorem bulk_max_rating_formula_witness :
    (checkSongProtectionBulk
        [{ user_id := "u1abcdefgh", rating := some 7, starred := false, starredAt := false },
         { user_id := "u2abcdefgh", rating := none, starred := true, starredAt := false }]
        []).max_rating
      = specMaxRating
        [{ user_id := "u1abcdefgh", rating := some 7, starred := false, starredAt := false },
         { user_id := "u2abcdefgh", rating := none, starred := true, starredAt := false }] ∧
    (5:ℚ) ≤ (checkSongProtectionBulk
        [{ user_id := "u1abcdefgh", rating := some 7, starred := false, starredAt := false },
         { user_id := "u2abcdefgh", rating := none, starred := true, starredAt := false }]
        []).max_rating :=
  ⟨(bulk_max_rating_formula _ []).1,
   (bulk_max_rating_formula _ []).2
     { user_id := "u2abcdefgh", rating := none, starred := true, starredAt := false }
     (by simp) (Or.inl rfl)⟩

/-! ## Association list lemmas for the store -/

theorem assocGet_nil {α : Type} (k : String) :
    assocGet ([] : List (String × α)) k = none := rfl

theorem assocGet_cons {α : Type} (hd : String × α) (tl : List (String × α)) (k : String) :
    assocGet (hd :: tl) k = if hd.1 = k then some hd.2 else assocGet tl k := by
  simp only [assocGet, List.find?]
  split_ifs with h <;> simp [h]

theorem assocSet_nil {α : Type} (k : String) (v : α) :
    assocSet ([] : List (String × α)) k v = [(k, v)] := rfl

theorem assocSet_cons {α : Type} (hd : String × α) (tl : List (String × α))
    (k : String) (v : α) :
    assocSet (hd :: tl) k v =
      if hd.1 = k then (k, v) :: tl.map (fun p => if p.1 = k then (k, v) else p)
      else hd :: assocSet tl k v := by
  by_cases h1 : hd.1 = k
  · simp [assocSet, h1]
  · by_cases h2 : tl.any (fun p => p.1 = k) <;> simp [assocSet, h1, h2]

theorem assocGet_map_set_other {α : Type} (tl : List (String × α))
    (k : String) (v : α) (k2 : String) (h : k2 ≠ k) :
    assocGet (tl.map fun p => if p.1 = k then (k, v) else p) k2 = assocGet tl k2 := by
  induction tl with
  | nil => rfl
  | cons hd tl ih =>
    by_cases hh : hd.1 = k
    · rw [List.map_cons, assocGet_cons, assocGet_cons, hh, if_pos rfl]
      have hk2 : ¬(k = k2) := fun he => h he.symm
      have hk2b : ¬(hd.1 = k2) := by rw [hh]; exact hk2
      simp only [hk2, hk2b, if_false, ih]
    · rw [List.map_cons, assocGet_cons, assocGet_cons, if_neg hh]
      by_cases hm : hd.1 = k2 <;> simp [hm, ih]

theorem assocGet_set_self {α : Type} (l : List (String × α)) (k : String) (v : α) :
    assocGet (assocSet l k v) k = some v := by
  induction l with
  | nil => simp [assocSet_nil, assocGet_cons]
  | cons hd tl ih =>
    rw [assocSet_cons]
    split_ifs with h
    · simp [assocGet_cons]
    · rw [assocGet_cons, if_neg h]
      exact ih

theorem assocGet_set_other {α : Type} (l : List (String × α)) (k : String) (v : α)
    (k2 : String) (h : k2 ≠ k) :
    assocGet (assocSet l k v) k2 = assocGet l k2 := by
  have hk2 : ¬(k = k2) := fun he => h he.symm
  induction l with
  | nil => simp [assocSet_nil, assocGet_cons, assocGet_nil, hk2]
  | cons hd tl ih =>
    rw [assocSet_cons]
    split_ifs with hh
    · rw [assocGet_cons, assocGet_cons, if_neg hk2]
      have hk2b : ¬(hd.1 = k2) := by rw [hh]; exact hk2
      rw [if_neg hk2b]
      exact assocGet_map_set_other tl k v k2 h
    · rw [assocGet_cons, assocGet_cons]
      by_cases hm : hd.1 = k2 <;> simp [hm, ih]

/-! ## Store-level lemmas -/

theorem loadUser_congr (st : DataStore) {u1 u2 : String}
    (h : sanitizeUser u1 = sanitizeUser u2) : loadUser st u1 = loadUser st u2 := by
  unfold loadUser
  rw [h]

theorem loadUser_save (st : DataStore) (u : String) (d : UserData) (u2 : String) :
    loadUser (saveUser st u d) u2 =
      if sanitizeUser u2 = sanitizeUser u then d else loadUser st u2 := by
  unfold loadUser saveUser
  by_cases h : sanitizeUser u2 = sanitizeUser u
  · rw [if_pos h, h]
    simp [assocGet_set_self]
  · rw [if_neg h, assocGet_set_other _ _ _ _ h]

theorem pendingTracks_add (st : DataStore) (u s : String) (info : TrackRec)
    (now : String) (u2 s2 : String) :
    pendingTracks (addPendingCleanup st u s info now) u2 s2 =
      if sanitizeUser u2 = sanitizeUser u ∧ s2 = s then
        addToTracks info now (pendingTracks st u s)
      else pendingTracks st u2 s2 := by
  unfold addPendingCleanup pendingTracks
  rw [loadUser_save]
  by_cases h1 : sanitizeUser u2 = sanitizeUser u
  · rw [if_pos h1]
    by_cases h2 : s2 = s
    · rw [if_pos ⟨h1, h2⟩, h2]
      simp [assocGet_set_self]
    · rw [if_neg (fun hc => h2 hc.2)]
      simp only [assocGet_set_other _ _ _ _ h2]
      rw [loadUser_congr st h1]
  · rw [if_neg h1, if_neg (fun hc => h1 hc.1)]

/-! ## Simulation lemmas tying the two store layers -/

theorem assocGet_map_val {α β : Type} (l : List (String × α)) (f : α → β) (k : String) :
    assocGet (l.map fun p => (p.1, f p.2)) k = (assocGet l k).map f := by
  induction l with
  | nil => rfl
  | cons hd tl ih =>
    rw [List.map_cons, assocGet_cons, assocGet_cons]
    by_cases h : hd.1 = k <;> simp [h, ih]

theorem assocSet_map_val {α β : Type} (l : List (String × α)) (f : α → β)
    (k : String) (v : α) :
    assocSet (l.map fun p => (p.1, f p.2)) k (f v) =
      (assocSet l k v).map fun p => (p.1, f p.2) := by
  induction l with
  | nil => rfl
  | cons hd tl ih =>
    rw [List.map_cons, assocSet_cons, assocSet_cons]
    by_cases h : hd.1 = k
    · rw [if_pos h, if_pos h, List.map_cons, List.map_map, List.map_map]
      congr 1
      apply List.map_congr_left
      intro p _
      by_cases hp : p.1 = k <;> simp [Function.comp, hp]
    · rw [if_neg h, if_neg h, List.map_cons, ih]

/-- On a store with no crashing files, the raw loader returns exactly
what the total `loadUser` computes. -/
theorem loadUserRaw_toRaw (st : DataStore) (u : String) :
    loadUserRaw st.toRaw u = .ok (.obj (loadUser st u)) := by
  unfold loadUserRaw loadUser DataStore.toRaw
  rw [assocGet_map_val]
  cases assocGet st.files (sanitizeUser u) with
  | none => rfl
  | some f => cases f <;> rfl

theorem saveUserRaw_toRaw (st : DataStore) (u : String) (d : UserData) :
    saveUserRaw st.toRaw u d = (saveUser st u d).toRaw := by
  unfold saveUserRaw saveUser DataStore.toRaw
  exact congrArg RawDataStore.mk
    (assocSet_map_val st.files UserFile.toRaw (sanitizeUser u) (UserFile.valid d))

/-- On a store with no crashing files, the raw operations agree with the
total ones and never raise. -/
theorem storeOpsRaw_toRaw (st : DataStore) (u source artist title : String)
    (info : TrackRec) (now : String) :
    getPendingCleanupRaw st.toRaw u = .ok (getPendingCleanup st u) ∧
    getPendingCountRaw st.toRaw u = .ok (getPendingCount st u) ∧
    isPendingCleanupRaw st.toRaw u artist title = .ok (isPendingCleanup st u artist title) ∧
    getMonitoredPlaylistsRaw st.toRaw u = .ok (getMonitoredPlaylists st u) ∧
    addPendingCleanupRaw st.toRaw u source info now
      = .ok (addPendingCleanup st u source info now).toRaw := by
  refine ⟨?_, ?_, ?_, ?_, ?_⟩
  · unfold getPendingCleanupRaw getPendingCleanup
    rw [loadUserRaw_toRaw]
  · unfold getPendingCountRaw getPendingCount
    rw [loadUserRaw_toRaw]
  · unfold isPendingCleanupRaw isPendingCleanup
    rw [loadUserRaw_toRaw]
  · unfold getMonitoredPlaylistsRaw getMonitoredPlaylists
    rw [loadUserRaw_toRaw]
  · unfold addPendingCleanupRaw addPendingCleanup
    rw [loadUserRaw_toRaw]
    simp only [saveUserRaw_toRaw]

/-! ## Claim about store corruption recovery -/

/-- Claim C8, counterexample: store corruption IS propagated to the
caller as a crash on two reachable kinds of invalid file — undecodable
bytes raise `UnicodeDecodeError` (not caught by
`except (json.JSONDecodeError, IOError)`), and JSON parsing to a
non-object raises `AttributeError` in every operation; the cleanup
manager's loader crashes on undecodable bytes as well. -/
theorem claim8_counterexample :
    getPendingCleanupRaw { files := [("dave", RawUserFile.undecodable)] } "dave"
      = .error PyError.unicodeDecodeError ∧
    getPendingCleanupRaw { files := [("erin", RawUserFile.parsedNonObject)] } "erin"
      = .error PyError.attributeError ∧
    loadDb DbFile.undecodable = .error PyError.unicodeDecodeError := by
  refine ⟨rfl, rfl, rfl⟩

/-- Claim C8 (amended): when a user's data file is missing, unreadable
(`IOError`) or fails JSON parsing (`json.JSONDecodeError`), every store
operation for that user proceeds on the empty default structure instead
of raising, and `CleanupManager._load_db` likewise resets to its empty
v2 structure; but corruption outside those cases is NOT recovered:
undecodable bytes raise `UnicodeDecodeError` out of the load, and JSON
parsing to a non-object raises `AttributeError` (`TypeError` for the
cleanup manager's membership test) in every operation. -/
theorem store_corruption_recovery (st : RawDataStore) (u : String)
    (source artist title : String) (info : TrackRec) (now : String)
    (hrec : assocGet st.files (sanitizeUser u) = none ∨
            assocGet st.files (sanitizeUser u) = some RawUserFile.unreadable) :
    loadUserRaw st u = .ok (.obj createDefaultUserData) ∧
    getPendingCleanupRaw st u = .ok [] ∧
    getPendingCountRaw st u = .ok 0 ∧
    isPendingCleanupRaw st u artist title = .ok false ∧
    getMonitoredPlaylistsRaw st u = .ok [] ∧
    addPendingCleanupRaw st u source info now
      = .ok (saveUserRaw st u
          { pending_cleanup := [(source, [newRec info now])]
            monitored_playlists := [] }) ∧
    (∀ (st2 : RawDataStore) (u2 : String),
      assocGet st2.files (sanitizeUser u2) = some RawUserFile.undecodable →
      loadUserRaw st2 u2 = .error PyError.unicodeDecodeError ∧
      getPendingCleanupRaw st2 u2 = .error PyError.unicodeDecodeError ∧
      addPendingCleanupRaw st2 u2 source info now = .error PyError.unicodeDecodeError) ∧
    (∀ (st2 : RawDataStore) (u2 : String),
      assocGet st2.files (sanitizeUser u2) = some RawUserFile.parsedNonObject →
      getPendingCleanupRaw st2 u2 = .error PyError.attributeError ∧
      addPendingCleanupRaw st2 u2 source info now = .error PyError.attributeError) ∧
    loadDb DbFile.missing = .ok { pending := [], version := 2 } ∧
    loadDb DbFile.unreadable = .ok { pending := [], version := 2 } ∧
    loadDb DbFile.undecodable = .error PyError.unicodeDecodeError ∧
    loadDb DbFile.parsedNonIterable = .error PyError.typeError := by
  have hl : loadUserRaw st u = .ok (.obj createDefaultUserData) := by
    unfold loadUserRaw
    rcases hrec with h | h <;> rw [h]
  refine ⟨hl, ?_, ?_, ?_, ?_, ?_, ?_, ?_, rfl, rfl, rfl, rfl⟩
  · unfold getPendingCleanupRaw
    rw [hl]
    rfl
  · unfold getPendingCountRaw
    rw [hl]
    rfl
  · unfold isPendingCleanupRaw
    rw [hl]
    rfl
  · unfold getMonitoredPlaylistsRaw
    rw [hl]
    rfl
  · unfold addPendingCleanupRaw
    rw [hl]
    rfl
  · intro st2 u2 h2
    have hl2 : loadUserRaw st2 u2 = .error PyError.unicodeDecodeError := by
      unfold loadUserRaw
      rw [h2]
    refine ⟨hl2, ?_, ?_⟩
    · unfold getPendingCleanupRaw
      rw [hl2]
    · unfold addPendingCleanupRaw
      rw [hl2]
  · intro st2 u2 h2
    have hl2 : loadUserRaw st2 u2 = .ok PyJson.nonObject := by
      unfold loadUserRaw
      rw [h2]
    refine ⟨?_, ?_⟩
    · unfold getPendingCleanupRaw
      rw [hl2]
    · unfold addPendingCleanupRaw
      rw [hl2]

/-- Claim C8 witness: one unreadable file that is recovered (load, count
and a concrete add proceed on the default), one undecodable file whose
read crashes, and one non-object file whose operation crashes. -/
theorem store_corruption_recovery_witness :
    loadUserRaw { files := [("bob", RawUserFile.unreadable)] } "bob"
      = .ok (.obj createDefaultUserData) ∧
    getPendingCountRaw { files := [("bob", RawUserFile.unreadable)] } "bob" = .ok 0 ∧
    addPendingCleanupRaw { files := [("bob", RawUserFile.unreadable)] } "bob" "ListenBrainz"
        { artist := "Artist", title := "Song", file_path := some "/a.mp3", added_at := none } "t1"
      = .ok (saveUserRaw { files := [("bob", RawUserFile.unreadable)] } "bob"
          { pending_cleanup := [("ListenBrainz",
              [newRec { artist := "Artist", title := "Song", file_path := some "/a.mp3", added_at := none } "t1"])]
            monitored_playlists := [] }) ∧
    getPendingCleanupRaw { files := [("dave", RawUserFile.undecodable)] } "dave"
      = .error PyError.unicodeDecodeError ∧
    addPendingCleanupRaw { files := [("erin", RawUserFile.parsedNonObject)] } "erin" "ListenBrainz"
        { artist := "Artist", title := "Song", file_path := some "/a.mp3", added_at := none } "t1"
      = .error PyError.attributeError := by
  have H := store_corruption_recovery { files := [("bob", RawUserFile.unreadable)] } "bob"
    "ListenBrainz" "Artist" "Song"
    { artist := "Artist", title := "Song", file_path := some "/a.mp3", added_at := none } "t1"
    (Or.inr (by decide))
  refine ⟨H.1, H.2.2.1, H.2.2.2.2.2.1, ?_, ?_⟩
  · exact (H.2.2.2.2.2.2.1 { files := [("dave", RawUserFile.undecodable)] } "dave" (by decide)).2.1
  · exact (H.2.2.2.2.2.2.2.1 { files := [("erin", RawUserFile.parsedNonObject)] } "erin" (by decide)).2

/-! ## Claim about the pending-cleanup upsert invariant -/

theorem recKey_applyUpdate (i : TrackRec) (now : String) :
    recKey (applyUpdate i now) = infoKey i := rfl

theorem recKey_newRec (i : TrackRec) (now : String) :
    recKey (newRec i now) = infoKey i := rfl

/-- Every record of an upserted list either carries the upserted key or a
key already present. -/
theorem key_of_mem_addToTracks (i : TrackRec) (now : String)
    {b : StoredRec} : ∀ {l : List StoredRec}, b ∈ addToTracks i now l →
      recKey b = infoKey i ∨ recKey b ∈ l.map recKey := by
  intro l
  induction l with
  | nil =>
    intro hb
    rcases List.mem_singleton.mp hb with h
    exact Or.inl (h ▸ recKey_newRec i now)
  | cons r rs ih =>
    intro hb
    by_cases hk : recKey r = infoKey i
    · rw [addToTracks, if_pos hk] at hb
      rcases List.mem_cons.mp hb with h | h
      · exact Or.inl (h ▸ recKey_applyUpdate i now)
      · exact Or.inr (List.mem_cons_of_mem _ (List.mem_map_of_mem recKey h))
    · rw [addToTracks, if_neg hk] at hb
      rcases List.mem_cons.mp hb with h | h
      · exact Or.inr (h ▸ List.mem_cons_self _ _)
      · rcases ih h with h2 | h2
        · exact Or.inl h2
        · exact Or.inr (List.mem_cons_of_mem _ h2)

/-- The upsert preserves key-uniqueness: updating the first match keeps
the key multiset, and a genuinely new key is appended once. -/
theorem addToTracks_noDup (i : TrackRec) (now : String) :
    ∀ {l : List StoredRec}, NoDupKey l → NoDupKey (addToTracks i now l) := by
  intro l
  induction l with
  | nil =>
    intro _
    exact List.pairwise_singleton _ _
  | cons r rs ih =>
    intro h
    rcases List.pairwise_cons.mp h with ⟨hr, hrs⟩
    by_cases hk : recKey r = infoKey i
    · rw [addToTracks, if_pos hk]
      refine List.pairwise_cons.mpr ⟨?_, hrs⟩
      intro b hb
      rw [recKey_applyUpdate, ← hk]
      exact hr b hb
    · rw [addToTracks, if_neg hk]
      refine List.pairwise_cons.mpr ⟨?_, ih hrs⟩
      intro b hb
      rcases key_of_mem_addToTracks i now hb with h2 | h2
      · rw [h2]
        exact hk
      · rcases List.mem_map.mp h2 with ⟨c, hc, hkey⟩
        rw [← hkey]
        exact hr c hc

/-- After an upsert into a key-unique list, the records carrying the
upserted key are exactly one, and it holds the upserted `file_path`. -/
theorem addToTracks_filter_filePath (i : TrackRec) (now : String) :
    ∀ {l : List StoredRec}, NoDupKey l →
      ((addToTracks i now l).filter fun r => decide (recKey r = infoKey i)).map
          (fun r => r.file_path)
        = [i.file_path] := by
  intro l
  induction l with
  | nil =>
    intro _
    have hdec : (decide (recKey (newRec i now) = infoKey i)) = true := by
      simp [recKey_newRec]
    show ((List.filter (fun r => decide (recKey r = infoKey i)) [newRec i now]).map
        (fun r => r.file_path)) = [i.file_path]
    rw [List.filter_cons, hdec]
    simp [newRec]
  | cons r rs ih =>
    intro h
    rcases List.pairwise_cons.mp h with ⟨hr, hrs⟩
    by_cases hk : recKey r = infoKey i
    · rw [addToTracks, if_pos hk]
      have hnil : rs.filter (fun r => decide (recKey r = infoKey i)) = [] := by
        rw [List.filter_eq_nil_iff]
        intro b hb
        simp only [decide_eq_true_eq]
        rw [← hk]
        exact fun he => hr b hb he.symm
      have hdec : (decide (recKey (applyUpdate i now) = infoKey i)) = true := by
        simp [recKey_applyUpdate]
      rw [List.filter_cons, hdec]
      simp [hnil, applyUpdate]
    · rw [addToTracks, if_neg hk]
      simp [List.filter_cons, hk, ih hrs]

theorem storeInv_empty : StoreInv emptyStore := by
  intro u s
  simp [pendingTracks, loadUser, emptyStore, assocGet_nil, createDefaultUserData, NoDupKey]

theorem storeInv_add (st : DataStore) (h : StoreInv st)
    (u s : String) (info : TrackRec) (now : String) :
    StoreInv (addPendingCleanup st u s info now) := by
  intro u2 s2
  rw [pendingTracks_add]
  split_ifs with hc
  · exact addToTracks_noDup info now (h u s)
  · exact h u2 s2

theorem storeInv_foldl (ops : List AddOp) :
    ∀ st : DataStore, StoreInv st → StoreInv (ops.foldl applyAdd st) := by
  induction ops with
  | nil => exact fun st h => h
  | cons op tl ih =>
    intro st h
    rw [List.foldl_cons]
    exact ih _ (storeInv_add st h op.username op.source op.info op.now)

/-- Claim C3: after any sequence of adds starting from the empty store,
every (owner, source) pending list holds at most one record per
case-insensitive (artist, title) key; and adding the same
(owner, source, artist, title) twice with different `file_path` values —
on any store satisfying the invariant — leaves exactly one record for
that key, carrying the `file_path` of the latest add. -/
theorem pending_upsert_invariant (ops : List AddOp) (st : DataStore)
    (hinv : StoreInv st) (u source : String) (i1 i2 : TrackRec)
    (n1 n2 : String) (hkey : infoKey i1 = infoKey i2)
    (hfp : i1.file_path ≠ i2.file_path) :
    StoreInv (ops.foldl applyAdd emptyStore) ∧
    ((pendingTracks
          (addPendingCleanup (addPendingCleanup st u source i1 n1) u source i2 n2)
          u source).filter fun r => decide (recKey r = infoKey i2)).map
        (fun r => r.file_path)
      = [i2.file_path] := by
  constructor
  · exact storeInv_foldl ops emptyStore storeInv_empty
  · have h1 : pendingTracks (addPendingCleanup st u source i1 n1) u source
        = addToTracks i1 n1 (pendingTracks st u source) := by
      rw [pendingTracks_add, if_pos ⟨rfl, rfl⟩]
    have h2 : pendingTracks
          (addPendingCleanup (addPendingCleanup st u source i1 n1) u source i2 n2)
          u source
        = addToTracks i2 n2 (addToTracks i1 n1 (pendingTracks st u source)) := by
      rw [pendingTracks_add, if_pos ⟨rfl, rfl⟩, h1]
    rw [h2]
    exact addToTracks_filter_filePath i2 n2
      (addToTracks_noDup i1 n1 (hinv u source))

/-- Claim C3 witness: two adds of the same song under different casing
and different file paths, on the empty store; exactly one record results
and it carries the second path.  The invariant conjunct is instantiated
with one concrete recorded add. -/
theorem pending_upsert_invariant_witness :
    StoreInv
      ([{ username := "alice"
          source := "ListenBrainz"
          info := { artist := "Artist", title := "Song", file_path := some "/a.mp3", added_at := none }
          now := "t0" }].foldl applyAdd emptyStore) ∧
    ((pendingTracks
          (addPendingCleanup
            (addPendingCleanup emptyStore "alice" "ListenBrainz"
              { artist := "Artist", title := "Song", file_path := some "/a.mp3", added_at := none } "t1")
            "alice" "ListenBrainz"
            { artist := "ARTIST", title := "song", file_path := some "/b.mp3", added_at := none } "t2")
          "alice" "ListenBrainz").filter fun r =>
        decide (recKey r = infoKey { artist := "ARTIST", title := "song", file_path := some "/b.mp3", added_at := none })).map
        (fun r => r.file_path)
      = [some "/b.mp3"] :=
  pending_upsert_invariant
    [{ username := "alice", source := "ListenBrainz",
       info := { artist := "Artist", title := "Song", file_path := some "/a.mp3", added_at := none },
       now := "t0" }]
    emptyStore storeInv_empty "alice" "ListenBrainz"
    { artist := "Artist", title := "Song", file_path := some "/a.mp3", added_at := none }
    { artist := "ARTIST", title := "song", file_path := some "/b.mp3", added_at := none }
    "t1" "t2" (by decide) (by decide)

/-! ## Claims about match resolution -/

theorem mergeSort_single {α : Type} (le : α → α → Bool) (x : α) :
    [x].mergeSort le = [x] :=
  List.perm_singleton.mp (List.mergeSort_perm [x] le)

/-- If every collected candidate scores below the threshold 60, the
search returns NoMatch. -/
theorem search_top_below_threshold (artist title : String) (album : Option String)
    (rs : List (Option (List Song)))
    (hall : ∀ c ∈ gatherCandidates rs,
      scoreSong (normalizeForMatch artist) (normalizeForMatch title)
        (album.map normalizeForMatch) c < 60) :
    searchSongInNavidrome artist title album rs = none := by
  by_cases hgc : (gatherCandidates rs).isEmpty
  · simp [searchSongInNavidrome, hgc]
  · simp only [searchSongInNavidrome, hgc, Bool.false_eq_true, if_false]
    cases hh : ((gatherCandidates rs).map fun s =>
        (s, scoreSong (normalizeForMatch artist) (normalizeForMatch title)
          (album.map normalizeForMatch) s)).mergeSort (fun a b => decide (b.2 ≤ a.2)) with
    | nil => simp [hh]
    | cons x xs =>
      have hmem2 : x ∈ ((gatherCandidates rs).map fun s =>
          (s, scoreSong (normalizeForMatch artist) (normalizeForMatch title)
            (album.map normalizeForMatch) s)) := by
        have hx : x ∈ (((gatherCandidates rs).map fun s =>
            (s, scoreSong (normalizeForMatch artist) (normalizeForMatch title)
              (album.map normalizeForMatch) s)).mergeSort (fun a b => decide (b.2 ≤ a.2))) := by
          rw [hh]
          exact List.mem_cons_self _ _
        exact (List.Perm.mem_iff (List.mergeSort_perm _ _)).mp hx
      rcases List.mem_map.mp hmem2 with ⟨c, hcmem, hcx⟩
      have hlt : x.2 < 60 := by
        rw [← hcx]
        exact hall c hcmem
      obtain ⟨b, sc⟩ := x
      have hlt2 : sc < 60 := hlt
      show (if sc ≥ 60 then some b else none) = none
      rw [if_neg (by omega)]

/-- Claim C4: a candidate whose normalized artist and title equal the
query's exactly, but whose normalized album neither equals, contains, nor
is contained in the supplied album hint, scores exactly
100 + 100 − 200 = 0 — below the acceptance threshold 60 — and when such a
candidate is the best one, resolution returns NoMatch. -/
theorem album_mismatch_rejected (artist title album : String) (s : Song)
    (rs : List (Option (List Song)))
    (ht : normalizeForMatch s.title = normalizeForMatch title)
    (ha : normalizeForMatch s.artist = normalizeForMatch artist)
    (hne : normalizeForMatch s.album ≠ normalizeForMatch album)
    (hin1 : pyIn (normalizeForMatch album) (normalizeForMatch s.album) = false)
    (hin2 : pyIn (normalizeForMatch s.album) (normalizeForMatch album) = false)
    (hmem : s ∈ gatherCandidates rs)
    (hbest : ∀ c ∈ gatherCandidates rs,
      scoreSong (normalizeForMatch artist) (normalizeForMatch title)
          (some (normalizeForMatch album)) c ≤
        scoreSong (normalizeForMatch artist) (normalizeForMatch title)
          (some (normalizeForMatch album)) s) :
    scoreSong (normalizeForMatch artist) (normalizeForMatch title)
        (some (normalizeForMatch album)) s = 0 ∧
    searchSongInNavidrome artist title (some album) rs = none := by
  have hscore : scoreSong (normalizeForMatch artist) (normalizeForMatch title)
      (some (normalizeForMatch album)) s = 0 := by
    simp [scoreSong, ht, ha, hne, hin1, hin2]
  refine ⟨hscore, ?_⟩
  apply search_top_below_threshold
  intro c hcmem
  have h1 := hbest c hcmem
  simp only [Option.map_some'] at *
  omega

/-- Claim C5: when the search yields exactly one candidate and the
candidate's normalized artist and title equal the query's (casing and
whitespace variation is erased by normalization), and the album hint, if
any, also matches after normalization, resolution returns that
candidate. -/
theorem exact_match_single_candidate_resolves (artist title : String)
    (album : Option String) (c : Song) (rs : List (Option (List Song)))
    (hc : gatherCandidates rs = [c])
    (ht : normalizeForMatch c.title = normalizeForMatch title)
    (ha : normalizeForMatch c.artist = normalizeForMatch artist)
    (hal : ∀ a ∈ album, normalizeForMatch c.album = normalizeForMatch a) :
    searchSongInNavidrome artist title album rs = some c := by
  have hsc : 60 ≤ scoreSong (normalizeForMatch artist) (normalizeForMatch title)
      (album.map normalizeForMatch) c := by
    cases album with
    | none =>
      simp only [Option.map_none', scoreSong, ht, ha, if_pos rfl]
      norm_num
    | some a =>
      have hada : normalizeForMatch c.album = normalizeForMatch a := hal a rfl
      simp only [Option.map_some', scoreSong, ht, ha, hada, if_pos rfl]
      norm_num
  simp only [searchSongInNavidrome, hc, List.map_cons, List.map_nil,
    mergeSort_single, List.head?_cons, List.isEmpty_cons, Bool.false_eq_true, if_false]
  rw [if_pos hsc]

/-- Claim C4 witness: correct artist and title but album "Live at
Wembley" against hint "Studio Album" — the candidate scores 0 and the
search, for which it is the only (hence best) candidate, returns
NoMatch. -/
theorem album_mismatch_rejected_witness :
    scoreSong (normalizeForMatch "Queen") (normalizeForMatch "Bohemian Rhapsody")
        (some (normalizeForMatch "Studio Album"))
        { id := "42", artist := "Queen", title := "Bohemian Rhapsody", album := "Live at Wembley" } = 0 ∧
    searchSongInNavidrome "Queen" "Bohemian Rhapsody" (some "Studio Album")
        [some [{ id := "42", artist := "Queen", title := "Bohemian Rhapsody", album := "Live at Wembley" }],
         none, none] = none :=
  album_mismatch_rejected "Queen" "Bohemian Rhapsody" "Studio Album"
    { id := "42", artist := "Queen", title := "Bohemian Rhapsody", album := "Live at Wembley" }
    [some [{ id := "42", artist := "Queen", title := "Bohemian Rhapsody", album := "Live at Wembley" }],
     none, none]
    (by decide) (by decide) (by decide) (by decide) (by decide) (by decide) (by decide)

/-- Claim C5 witness: a one-candidate library where the candidate differs
from the query only by casing and doubled whitespace — resolution returns
that candidate. -/
theorem exact_match_single_candidate_resolves_witness :
    searchSongInNavidrome "The Weeknd" "Blinding Lights" none
        [some [{ id := "7", artist := "the  WEEKND", title := "Blinding  lights", album := "After Hours" }],
         none, some []]
      = some { id := "7", artist := "the  WEEKND", title := "Blinding  lights", album := "After Hours" } :=
  exact_match_single_candidate_resolves "The Weeknd" "Blinding Lights" none
    { id := "7", artist := "the  WEEKND", title := "Blinding  lights", album := "After Hours" }
    [some [{ id := "7", artist := "the  WEEKND", title := "Blinding  lights", album := "After Hours" }],
     none, some []]
    (by decide) (by decide) (by decide) (by simp)

end TrackDrop
